import Mathlib

/-!
Shallow embedding of the ledger domain model and finance service of a
personal finance tracker (models.py, services.py, exceptions.py,
database.py).

Modelling conventions:
- Monetary amounts are exact rationals (`ℚ`); Python float arithmetic on
  the finite values occurring here is modelled exactly.  The one claim
  about non-finite amounts uses a dedicated `PyFloat` type that models
  IEEE comparison with infinities and NaN.
- Dates are structured year-month-day triples compared lexicographically,
  which matches Python `datetime.date` comparison of values parsed from
  well-formed `YYYY-MM-DD` strings; parsing itself is elided.
- Python dictionaries (with insertion order) are association lists.
- Python exceptions are modelled by returning a pair
  `Option PyError × State`: the second component is the state as mutated
  up to the raise point, so "state unchanged on failure" is an actual
  theorem, not a modelling artifact.
- `datetime.now()` is an input parameter (`today`); file writes and the
  SQLite layer are modelled as append logs inside the service state
  (`db_transactions`, `db_debts`, `db_goals`, update logs).
-/

/-- A calendar date as parsed from a `YYYY-MM-DD` string. -/
structure PyDate where
  year : Nat
  month : Nat
  day : Nat
deriving DecidableEq

/-- Python `date` ordering: lexicographic on (year, month, day). -/
def PyDate.ble (a b : PyDate) : Bool :=
  decide (a.year < b.year) ||
    (decide (a.year = b.year) &&
      (decide (a.month < b.month) ||
        (decide (a.month = b.month) && decide (a.day ≤ b.day))))

/-- The Python exceptions raised by the core: `ValueError` (validation,
not-found and state errors), `KeyError` (dict lookup) and the custom
`InsufficientFundsError` of exceptions.py, which carries the current
balance and the attempted amount. -/
inductive PyError where
  | valueError (msg : String)
  | keyError (key : String)
  | insufficientFunds (balance : ℚ) (amount : ℚ)
deriving DecidableEq

/-- A transaction (models.py `Transaction` / `CategorizedTransaction`):
`category = none` models a plain `Transaction`, `category = some c`
models a `CategorizedTransaction` with category `c` (the
`isinstance(t, CategorizedTransaction)` test is `category.isSome`). -/
structure Transaction where
  amount : ℚ
  date : PyDate
  description : String
  category : Option String
deriving DecidableEq

/-- A Python float input value: finite (modelled exactly by a rational),
positive or negative infinity, or NaN. -/
inductive PyFloat where
  | finite (q : ℚ)
  | posInf
  | negInf
  | nan
deriving DecidableEq

/-- IEEE semantics of the Python comparison `amount <= 0`:
false for `+inf` and for NaN (every comparison with NaN is false),
true for `-inf`, and the exact rational comparison for finite values. -/
def PyFloat.leZero : PyFloat → Bool
  | .finite q => decide (q ≤ 0)
  | .posInf => false
  | .negInf => true
  | .nan => false

/-- A transaction record keeping the raw float amount, for the
constructor-validation claim. -/
structure TransactionF where
  amount : PyFloat
  date : PyDate
  description : String
deriving DecidableEq

/-- models.py `Transaction.__init__` on a float amount: raises
`ValueError` when `amount <= 0` holds under IEEE comparison; there is no
finiteness check in the source. -/
def mkTransactionF (amount : PyFloat) (date : PyDate) (description : String) :
    Except PyError TransactionF :=
  if amount.leZero then .error (.valueError "Сума має бути додатнім числом.")
  else .ok ⟨amount, date, description⟩

/-- models.py `CategorizedTransaction(amount, date, description, category)`
for finite amounts: the inherited `Transaction.__init__` validation
`amount <= 0` raises `ValueError`. -/
def mkCategorizedTransaction (amount : ℚ) (date : PyDate)
    (description category : String) : Except PyError Transaction :=
  if amount ≤ 0 then .error (.valueError "Сума має бути додатнім числом.")
  else .ok ⟨amount, date, description, some category⟩

/-- models.py `Account`: name, running balance, ordered transaction list. -/
structure Account where
  name : String
  balance : ℚ
  transactions : List Transaction
deriving DecidableEq

/-- models.py `Account.add_transaction(transaction, is_income)`:
for an expense whose amount exceeds the balance, raises
`InsufficientFundsError(balance, amount)` before any mutation;
otherwise adjusts the balance and appends the transaction. -/
def Account.add_transaction (acc : Account) (t : Transaction)
    (is_income : Bool) : Option PyError × Account :=
  if !is_income then
    if t.amount > acc.balance then
      (some (.insufficientFunds acc.balance t.amount), acc)
    else
      (none, { acc with balance := acc.balance - t.amount,
                        transactions := acc.transactions ++ [t] })
  else
    (none, { acc with balance := acc.balance + t.amount,
                      transactions := acc.transactions ++ [t] })

/-- models.py `Account.get_transactions_by_period(start_date, end_date)`:
the subsequence of transactions whose date lies in the inclusive range. -/
def Account.get_transactions_by_period (acc : Account)
    (start_date end_date : PyDate) : List Transaction :=
  acc.transactions.filter (fun t => start_date.ble t.date && t.date.ble end_date)

/-- A sequence of `add_transaction` calls, stopping at the first raised
error (as a caller issuing them one by one would). -/
def Account.apply_all : Account → List (Transaction × Bool) → Option PyError × Account
  | acc, [] => (none, acc)
  | acc, (t, inc) :: rest =>
    match acc.add_transaction t inc with
    | (some e, a) => (some e, a)
    | (none, a) => Account.apply_all a rest

/-- Lookup in an association list modelling a Python dict (first, i.e.
unique, occurrence of the key). -/
def alistLookup {α : Type} : List (String × α) → String → Option α
  | [], _ => none
  | (k0, v0) :: rest, k => if k0 = k then some v0 else alistLookup rest k

/-- Python `d.setdefault(k, 0); d[k] += a` on an insertion-ordered dict:
add to the existing entry, or append a fresh one. -/
def dictAdd : List (String × ℚ) → String → ℚ → List (String × ℚ)
  | [], k, a => [(k, a)]
  | (k0, v0) :: rest, k, a =>
    if k0 = k then (k0, v0 + a) :: rest else (k0, v0) :: dictAdd rest k a

/-- Python `d[name] = v` on an insertion-ordered dict: replace the entry
in place, or append a fresh one. -/
def alistUpdate {α : Type} : List (String × α) → String → α → List (String × α)
  | [], k, v => [(k, v)]
  | (k0, v0) :: rest, k, v =>
    if k0 = k then (k0, v) :: rest else (k0, v0) :: alistUpdate rest k v

/-- The dict value at a key, defaulting to 0 (what the report loops
leave at a key they never touched). -/
def valueOrZero (d : List (String × ℚ)) (k : String) : ℚ :=
  (alistLookup d k).getD 0

/-- Loop body of models.py `SpendingReport.generate`: categorized
transactions whose category is not the income sentinel are summed into
the dict under their category. -/
def spendStep (spending : List (String × ℚ)) (t : Transaction) :
    List (String × ℚ) :=
  match t.category with
  | some c => if c ≠ "Дохід" then dictAdd spending c t.amount else spending
  | none => spending

/-- Loop body of models.py `IncomeReport.generate`: categorized
transactions whose category is the income sentinel are summed into the
dict under their description. -/
def incomeStep (income : List (String × ℚ)) (t : Transaction) :
    List (String × ℚ) :=
  match t.category with
  | some c => if c = "Дохід" then dictAdd income t.description t.amount else income
  | none => income

/-- models.py `SpendingReport.generate(start_date, end_date)`. -/
def SpendingReport.generate (account : Account) (start_date end_date : PyDate) :
    List (String × ℚ) :=
  (account.get_transactions_by_period start_date end_date).foldl spendStep []

/-- models.py `IncomeReport.generate(start_date, end_date)`. -/
def IncomeReport.generate (account : Account) (start_date end_date : PyDate) :
    List (String × ℚ) :=
  (account.get_transactions_by_period start_date end_date).foldl incomeStep []

/-- models.py `Budget`. -/
structure Budget where
  category : String
  limit : ℚ
deriving DecidableEq

/-- models.py `Budget.get_spent_amount(transactions)`: sum of amounts of
the categorized transactions whose category equals the budget category. -/
def Budget.get_spent_amount (b : Budget) (transactions : List Transaction) : ℚ :=
  ((transactions.filter (fun t => t.category = some b.category)).map
    Transaction.amount).sum

/-- models.py `SavingsGoal` (id is assigned by storage, `none` before
the first save). -/
structure SavingsGoal where
  id : Option Int
  name : String
  target_amount : ℚ
  current_amount : ℚ
deriving DecidableEq

/-- models.py `SavingsGoal.add_contribution(amount)`: raises `ValueError`
for a non-positive amount, otherwise adds and clamps to the target. -/
def SavingsGoal.add_contribution (g : SavingsGoal) (amount : ℚ) :
    Option PyError × SavingsGoal :=
  if amount ≤ 0 then
    (some (.valueError "Внесок має бути позитивним числом"), g)
  else
    let c := g.current_amount + amount
    (none, { g with
      current_amount := if c > g.target_amount then g.target_amount else c })

/-- models.py `SavingsGoal.get_progress()`. -/
def SavingsGoal.get_progress (g : SavingsGoal) : ℚ :=
  if g.target_amount = 0 then 100
  else g.current_amount / g.target_amount * 100

/-- A sequence of `add_contribution` calls, stopping at the first raised
error. -/
def SavingsGoal.contribute_all : SavingsGoal → List ℚ → Option PyError × SavingsGoal
  | g, [] => (none, g)
  | g, a :: rest =>
    match g.add_contribution a with
    | (some e, g1) => (some e, g1)
    | (none, g1) => SavingsGoal.contribute_all g1 rest

/-- models.py `Debt`. -/
structure Debt where
  id : Option Int
  name : String
  amount : ℚ
  due_date : String
  is_loan : Bool
  is_paid : Bool
deriving DecidableEq

/-- Replace (in place) the first debt with the given id, as Python does
by mutating the object found by `next(...)`. -/
def replaceFirstDebt : List Debt → Int → Debt → List Debt
  | [], _, _ => []
  | d :: rest, i, d2 =>
    if d.id = some i then d2 :: rest else d :: replaceFirstDebt rest i d2

/-- Replace (in place) the first goal with the given id. -/
def replaceFirstGoal : List SavingsGoal → Int → SavingsGoal → List SavingsGoal
  | [], _, _ => []
  | g :: rest, i, g2 =>
    if g.id = some i then g2 :: rest else g :: replaceFirstGoal rest i g2

/-- services.py `FinanceService` state: the user account dict, the
currently selected account name (`None` until `set_current_account`),
the in-memory debt and goal caches, and the database modelled as append
logs (`db_*` insert logs, `db_*_updates` update logs).  `next_id` models
the AUTOINCREMENT id source of database.py. -/
structure FinanceService where
  accounts : List (String × Account)
  current_account_name : Option String
  debts : List Debt
  goals : List SavingsGoal
  db_transactions : List (String × Transaction × Bool)
  db_debts : List Debt
  db_goals : List SavingsGoal
  db_debt_updates : List Debt
  db_goal_updates : List SavingsGoal
  next_id : Int
deriving DecidableEq

/-- services.py `set_current_account(name)`: not-found `ValueError` when
the name is absent from the user accounts dict. -/
def FinanceService.set_current_account (svc : FinanceService) (name : String) :
    Option PyError × FinanceService :=
  if (alistLookup svc.accounts name).isSome then
    (none, { svc with current_account_name := some name })
  else
    (some (.valueError "Рахунок не знайдено."), svc)

/-- services.py `get_current_account()`: the guard is Python truthiness
(`if not self._current_account_name`), so both `None` and the empty
string raise the state error; then a plain dict lookup (`KeyError` if
the name vanished from the dict). -/
def FinanceService.get_current_account (svc : FinanceService) :
    Except PyError Account :=
  match svc.current_account_name with
  | none => .error (.valueError "Поточний рахунок не встановлено.")
  | some name =>
    if name = "" then .error (.valueError "Поточний рахунок не встановлено.")
    else
      match alistLookup svc.accounts name with
      | some acc => .ok acc
      | none => .error (.keyError name)

/-- services.py `add_transaction(amount, description, category, is_income)`:
forces the category to the income sentinel for income, builds the
transaction dated `today` (constructor validation first), then fetches
the current account (state error), delegates to
`Account.add_transaction` (insufficient funds), and on success stores
the mutated account and appends the row to the transaction table. -/
def FinanceService.add_transaction (svc : FinanceService) (today : PyDate)
    (amount : ℚ) (description category : String) (is_income : Bool) :
    Option PyError × FinanceService :=
  match mkCategorizedTransaction amount today description
      (if is_income then "Дохід" else category) with
  | .error e => (some e, svc)
  | .ok t =>
    match svc.get_current_account with
    | .error e => (some e, svc)
    | .ok account =>
      match account.add_transaction t is_income with
      | (some e, _) => (some e, svc)
      | (none, account2) =>
        (none, { svc with
          accounts := alistUpdate svc.accounts
            (svc.current_account_name.getD "") account2,
          db_transactions := svc.db_transactions ++
            [(svc.current_account_name.getD "", t, is_income)] })

/-- services.py `add_debt(name, amount, due_date, is_loan)`: saves to
storage (obtaining a fresh id) and appends to the in-memory cache; it
never touches the current account. -/
def FinanceService.add_debt (svc : FinanceService) (name : String)
    (amount : ℚ) (due_date : String) (is_loan : Bool) :
    Option PyError × FinanceService :=
  let d : Debt := ⟨some svc.next_id, name, amount, due_date, is_loan, false⟩
  (none, { svc with
    next_id := svc.next_id + 1,
    db_debts := svc.db_debts ++ [d],
    debts := svc.debts ++ [d] })

/-- services.py `update_debt_status(debt_id, is_paid)`: not-found
`ValueError` when the id is absent from the cache; otherwise mutates the
cached debt and issues a storage update. -/
def FinanceService.update_debt_status (svc : FinanceService) (debt_id : Int)
    (is_paid : Bool) : Option PyError × FinanceService :=
  match svc.debts.find? (fun d => decide (d.id = some debt_id)) with
  | none => (some (.valueError "Борг не знайдено."), svc)
  | some debt =>
    let debt2 := { debt with is_paid := is_paid }
    (none, { svc with
      debts := replaceFirstDebt svc.debts debt_id debt2,
      db_debt_updates := svc.db_debt_updates ++ [debt2] })

/-- services.py `add_savings_goal(name, target_amount)`: saves to storage
(obtaining a fresh id) and appends to the in-memory cache; it never
touches the current account. -/
def FinanceService.add_savings_goal (svc : FinanceService) (name : String)
    (target_amount : ℚ) : Option PyError × FinanceService :=
  let g : SavingsGoal := ⟨some svc.next_id, name, target_amount, 0⟩
  (none, { svc with
    next_id := svc.next_id + 1,
    db_goals := svc.db_goals ++ [g],
    goals := svc.goals ++ [g] })

/-- services.py `add_contribution_to_goal(goal_id, amount)`: looks the
goal up in the cache (not-found `ValueError`), posts the savings expense
through `add_transaction` (any of its errors aborts with the state as
mutated so far), and only then updates the goal, stores it in the cache
and issues the storage update. -/
def FinanceService.add_contribution_to_goal (svc : FinanceService)
    (today : PyDate) (goal_id : Int) (amount : ℚ) :
    Option PyError × FinanceService :=
  match svc.goals.find? (fun g => decide (g.id = some goal_id)) with
  | none => (some (.valueError "Ціль не знайдено."), svc)
  | some goal =>
    match svc.add_transaction today amount
        ("Внесок до цілі: " ++ goal.name) "Заощадження" false with
    | (some e, svc1) => (some e, svc1)
    | (none, svc1) =>
      match goal.add_contribution amount with
      | (some e, _) => (some e, svc1)
      | (none, goal2) =>
        (none, { svc1 with
          goals := replaceFirstGoal svc1.goals goal_id goal2,
          db_goal_updates := svc1.db_goal_updates ++ [goal2] })

/-- The two report kinds passed to services.py `generate_report`. -/
inductive ReportKind where
  | spending
  | income
deriving DecidableEq

/-- Round to the nearest integer, ties to even (the rounding of Python
`format(x, ".2f")` applied to the scaled value). -/
def roundHalfEven (x : ℚ) : Int :=
  let f := ⌊x⌋
  let r := x - f
  if r < 1 / 2 then f
  else if r > 1 / 2 then f + 1
  else if f % 2 = 0 then f else f + 1

/-- Two-digit zero-padded rendering of a remainder below 100. -/
def natPad2 (n : Nat) : String :=
  if n < 10 then "0" ++ toString n else toString n

/-- Python `{:.2f}` formatting of an amount. -/
def pyFmt2 (q : ℚ) : String :=
  let n := roundHalfEven (q * 100)
  let m := n.natAbs
  let s := toString (m / 100) ++ "." ++ natPad2 (m % 100)
  if n < 0 then "-" ++ s else s

/-- One aggregated-key line of the report body, as services.py writes it:
`"- {key}: {value:.2f} грн"`. -/
def reportLine (k : String) (v : ℚ) : String :=
  "- " ++ k ++ ": " ++ pyFmt2 v ++ " грн"

/-- The aggregated-key line shape stated by the specification:
`"- {key}: {value formatted to 2 decimals}"` (no currency suffix). -/
def specReportLine (k : String) (v : ℚ) : String :=
  "- " ++ k ++ ": " ++ pyFmt2 v

/-- services.py report title. -/
def reportTitle (kind : ReportKind) (start_date end_date : String) : String :=
  (match kind with
   | .spending => "Звіт про витрати"
   | .income => "Звіт про доходи") ++ " з " ++ start_date ++ " по " ++ end_date

/-- services.py `generate_report` text assembly: title, blank line, one
line per aggregated key accumulated by the loop, then the trailing total
line (or the no-data line when the mapping is empty). -/
def renderReportText (kind : ReportKind) (data : List (String × ℚ))
    (start_date end_date : String) : String :=
  if data.isEmpty then
    reportTitle kind start_date end_date ++ "\n\n" ++
      "Даних за цей період немає."
  else
    data.foldl (fun acc p => acc ++ reportLine p.1 p.2 ++ "\n")
      (reportTitle kind start_date end_date ++ "\n\n") ++
    "\n" ++ "Усього: " ++ pyFmt2 ((data.map Prod.snd).sum) ++ " грн"

/-- services.py report file stem (`spending_report` / `income_report`). -/
def reportFileStem (kind : ReportKind) : String :=
  match kind with
  | .spending => "spending_report"
  | .income => "income_report"

/-- services.py report file name: `{stem}_{YYYY-MM}.txt`, opened relative
to the working directory. -/
def reportFilename (kind : ReportKind) (yearMonth : String) : String :=
  reportFileStem kind ++ "_" ++ yearMonth ++ ".txt"

/-- Split a string into its newline-separated lines (used to inspect the
report artifact). -/
def splitLinesAux : List Char → List Char → List String
  | [], acc => [String.mk acc.reverse]
  | c :: rest, acc =>
    if c = '\n' then String.mk acc.reverse :: splitLinesAux rest []
    else splitLinesAux rest (c :: acc)

/-- The lines of a string. -/
def splitLines (s : String) : List String :=
  splitLinesAux s.data []

/-- Four-digit zero-padded year, as `strftime` renders `%Y`. -/
def natPad4 (n : Nat) : String :=
  if n < 10 then "000" ++ toString n
  else if n < 100 then "00" ++ toString n
  else if n < 1000 then "0" ++ toString n
  else toString n

/-- `strftime` rendering `%Y-%m-%d` of a date. -/
def pyDateStr (d : PyDate) : String :=
  natPad4 d.year ++ "-" ++ natPad2 d.month ++ "-" ++ natPad2 d.day

/-- `strftime` rendering `%Y-%m` of a date. -/
def pyDateYM (d : PyDate) : String :=
  natPad4 d.year ++ "-" ++ natPad2 d.month

/-- Insert into a list sorted descending by value, after existing
entries with the same value (giving the stability of Python sort). -/
def insertByDesc (x : String × ℚ) : List (String × ℚ) → List (String × ℚ)
  | [] => [x]
  | y :: ys => if y.2 ≤ x.2 then x :: y :: ys else y :: insertByDesc x ys

/-- Python `sorted(items, key=lambda item: item[1], reverse=True)`:
stable sort descending by the dict value. -/
def sortByValueDesc : List (String × ℚ) → List (String × ℚ)
  | [] => []
  | x :: xs => insertByDesc x (sortByValueDesc xs)

/-- services.py `generate_report(report_type)`: fetches the current
account (state error when unset), generates the requested report over
the current month (day 1 of `today` through `today`), and returns the
rendered text plus the file name it is written to (the file write
itself is I/O). -/
def FinanceService.generate_report (svc : FinanceService)
    (kind : ReportKind) (today : PyDate) : Except PyError (String × String) :=
  match svc.get_current_account with
  | .error e => .error e
  | .ok account =>
    .ok (renderReportText kind
          (match kind with
           | .spending =>
             SpendingReport.generate account { today with day := 1 } today
           | .income =>
             IncomeReport.generate account { today with day := 1 } today)
          (pyDateStr { today with day := 1 }) (pyDateStr today),
        reportFilename kind (pyDateYM today))

/-- services.py `get_spending_analysis()`: fetches the current account
(state error when unset), generates the spending report over the whole
history (start 2000-01-01), sorts the categories descending by spend and
keeps the top 5. -/
def FinanceService.get_spending_analysis (svc : FinanceService)
    (today : PyDate) : Except PyError (List (String × ℚ)) :=
  match svc.get_current_account with
  | .error e => .error e
  | .ok account =>
    .ok ((sortByValueDesc
      (SpendingReport.generate account ⟨2000, 1, 1⟩ today)).take 5)

/-! ## Sums over addition sequences -/

/-- The sum of the income amounts of a sequence of additions. -/
def incomeSum : List (Transaction × Bool) → ℚ
  | [] => 0
  | (t, true) :: rest => t.amount + incomeSum rest
  | (_, false) :: rest => incomeSum rest

/-- The sum of the expense amounts of a sequence of additions. -/
def expenseSum : List (Transaction × Bool) → ℚ
  | [] => 0
  | (_, true) :: rest => expenseSum rest
  | (t, false) :: rest => t.amount + expenseSum rest

lemma apply_all_balance (ops : List (Transaction × Bool)) :
    ∀ acc acc2 : Account, Account.apply_all acc ops = (none, acc2) →
      acc2.balance = acc.balance + incomeSum ops - expenseSum ops := by
  induction ops with
  | nil =>
    intro acc acc2 h
    simp only [Account.apply_all, Prod.mk.injEq, true_and] at h
    rw [← h]
    simp [incomeSum, expenseSum]
  | cons p rest ih =>
    obtain ⟨t, inc⟩ := p
    intro acc acc2 h
    cases inc with
    | true =>
      simp only [Account.apply_all, Account.add_transaction, Bool.not_true,
        Bool.false_eq_true, if_false] at h
      have := ih _ _ h
      rw [this]
      simp [incomeSum, expenseSum]
      ring
    | false =>
      by_cases hgt : t.amount > acc.balance
      · simp only [Account.apply_all, Account.add_transaction, Bool.not_false,
          if_true, if_pos hgt] at h
        simp at h
      · simp only [Account.apply_all, Account.add_transaction, Bool.not_false,
          if_true, if_neg hgt] at h
        have := ih _ _ h
        rw [this]
        simp [incomeSum, expenseSum]
        ring

/-- C1: for every account and every expense addition whose amount exceeds
the current balance, `Account.add_transaction` raises
`InsufficientFundsError` carrying the current balance and the attempted
amount, and leaves the balance and the transaction list unchanged. -/
theorem C1_insufficient_funds (acc : Account) (t : Transaction)
    (h : t.amount > acc.balance) :
    acc.add_transaction t false =
      (some (PyError.insufficientFunds acc.balance t.amount), acc) := by
  simp [Account.add_transaction, h]

/-- C1 witness: the scenario of the spec at balance 70 and expense 120. -/
theorem C1_witness :
    ((120 : ℚ) > 70) ∧
    Account.add_transaction ⟨"Тестовий", 70, []⟩
        ⟨120, ⟨2025, 10, 26⟩, "Велика покупка", none⟩ false =
      (some (PyError.insufficientFunds 70 120), ⟨"Тестовий", 70, []⟩) :=
  ⟨by norm_num,
   C1_insufficient_funds ⟨"Тестовий", 70, []⟩
     ⟨120, ⟨2025, 10, 26⟩, "Велика покупка", none⟩ (by norm_num)⟩

/-- C2: after any sequence of successful `add_transaction` calls the
balance equals the initial balance plus the income amounts minus the
expense amounts; and an expense exactly equal to the current balance
succeeds and yields balance 0. -/
theorem C2_balance_sum (acc : Account) :
    (∀ (ops : List (Transaction × Bool)) (acc2 : Account),
        Account.apply_all acc ops = (none, acc2) →
        acc2.balance = acc.balance + incomeSum ops - expenseSum ops) ∧
    (∀ t : Transaction, t.amount = acc.balance →
        ∃ acc2, acc.add_transaction t false = (none, acc2) ∧
          acc2.balance = 0) := by
  constructor
  · intro ops acc2 h
    exact apply_all_balance ops acc acc2 h
  · intro t ht
    refine ⟨{ acc with
              balance := acc.balance - t.amount
              transactions := acc.transactions ++ [t] }, ?_, ?_⟩
    · simp [Account.add_transaction, ht]
    · simp [ht]

/-- C2 witness: spending the exact balance 100 empties the account. -/
theorem C2_witness :
    (100 : ℚ) = 100 ∧
    ((Account.add_transaction ⟨"Тест", 100, []⟩
        ⟨100, ⟨2025, 10, 26⟩, "Все на нуль", none⟩ false).2).balance = 0 := by
  refine ⟨rfl, ?_⟩
  obtain ⟨acc2, h1, h2⟩ :=
    (C2_balance_sum ⟨"Тест", 100, []⟩).2
      ⟨100, ⟨2025, 10, 26⟩, "Все на нуль", none⟩ rfl
  rw [h1]
  exact h2

/-! ## Dictionary accumulation lemmas for the reports -/

lemma alistLookup_dictAdd (d : List (String × ℚ)) (k : String) (a : ℚ)
    (k2 : String) :
    alistLookup (dictAdd d k a) k2 =
      if k2 = k then some ((alistLookup d k).getD 0 + a)
      else alistLookup d k2 := by
  induction d with
  | nil =>
    by_cases h : k2 = k
    · subst h; simp [dictAdd, alistLookup]
    · simp [dictAdd, alistLookup, h, Ne.symm h]
  | cons p rest ih =>
    obtain ⟨k0, v0⟩ := p
    by_cases h0 : k0 = k
    · subst h0
      by_cases h2 : k2 = k0
      · subst h2; simp [dictAdd, alistLookup]
      · simp [dictAdd, alistLookup, h2, Ne.symm h2]
    · by_cases h2 : k0 = k2
      · subst h2
        simp [dictAdd, alistLookup, h0, Ne.symm h0]
      · simp [dictAdd, alistLookup, h0, h2, ih]

lemma valueOrZero_dictAdd (d : List (String × ℚ)) (k : String) (a : ℚ)
    (k2 : String) :
    valueOrZero (dictAdd d k a) k2 =
      valueOrZero d k2 + if k2 = k then a else 0 := by
  unfold valueOrZero
  rw [alistLookup_dictAdd]
  by_cases h : k2 = k
  · subst h; simp
  · simp [h]

lemma valueOrZero_spendStep (d0 : List (String × ℚ)) (t : Transaction)
    (k : String) :
    valueOrZero (spendStep d0 t) k =
      valueOrZero d0 k +
        if t.category = some k ∧ k ≠ "Дохід" then t.amount else 0 := by
  rcases hc : t.category with _ | c
  · simp [spendStep, hc]
  · by_cases hinc : c = "Дохід"
    · subst hinc
      by_cases hk : k = "Дохід"
      · simp [spendStep, hc, hk]
      · simp [spendStep, hc, hk, Ne.symm hk]
    · have hstep : spendStep d0 t = dictAdd d0 c t.amount := by
        simp [spendStep, hc, hinc]
      rw [hstep, valueOrZero_dictAdd]
      by_cases hk : k = c
      · subst hk; simp [hinc]
      · simp [hk, Ne.symm hk]

lemma valueOrZero_incomeStep (d0 : List (String × ℚ)) (t : Transaction)
    (k : String) :
    valueOrZero (incomeStep d0 t) k =
      valueOrZero d0 k +
        if t.category = some "Дохід" ∧ t.description = k then t.amount
        else 0 := by
  rcases hc : t.category with _ | c
  · simp [incomeStep, hc]
  · by_cases hinc : c = "Дохід"
    · subst hinc
      have hstep : incomeStep d0 t = dictAdd d0 t.description t.amount := by
        simp [incomeStep, hc]
      rw [hstep, valueOrZero_dictAdd]
      by_cases hk : k = t.description
      · subst hk; simp [hc]
      · simp [hk, hc, Ne.symm hk]
    · simp [incomeStep, hc, hinc, Ne.symm hinc]

lemma spend_foldl_value (ts : List Transaction) :
    ∀ (d0 : List (String × ℚ)) (k : String),
      valueOrZero (ts.foldl spendStep d0) k =
        valueOrZero d0 k +
          ((ts.filter (fun t =>
              decide (t.category = some k ∧ k ≠ "Дохід"))).map
            Transaction.amount).sum := by
  induction ts with
  | nil => intro d0 k; simp
  | cons t rest ih =>
    intro d0 k
    rw [List.foldl_cons, ih, valueOrZero_spendStep, List.filter_cons]
    by_cases hmatch : t.category = some k ∧ k ≠ "Дохід"
    · obtain ⟨h1, h2⟩ := hmatch
      simp [h1, h2]
      ring
    · simp [hmatch]

lemma income_foldl_value (ts : List Transaction) :
    ∀ (d0 : List (String × ℚ)) (k : String),
      valueOrZero (ts.foldl incomeStep d0) k =
        valueOrZero d0 k +
          ((ts.filter (fun t =>
              decide (t.category = some "Дохід" ∧ t.description = k))).map
            Transaction.amount).sum := by
  induction ts with
  | nil => intro d0 k; simp
  | cons t rest ih =>
    intro d0 k
    rw [List.foldl_cons, ih, valueOrZero_incomeStep, List.filter_cons]
    by_cases hmatch : t.category = some "Дохід" ∧ t.description = k
    · obtain ⟨h1, h2⟩ := hmatch
      simp [h1, h2]
      ring
    · simp [hmatch]

lemma spendStep_income_none (d0 : List (String × ℚ)) (t : Transaction)
    (h : alistLookup d0 "Дохід" = none) :
    alistLookup (spendStep d0 t) "Дохід" = none := by
  rcases hc : t.category with _ | c
  · simpa [spendStep, hc] using h
  · by_cases hinc : c = "Дохід"
    · subst hinc; simpa [spendStep, hc] using h
    · have hstep : spendStep d0 t = dictAdd d0 c t.amount := by
        simp [spendStep, hc, hinc]
      rw [hstep, alistLookup_dictAdd]
      simp [Ne.symm hinc, h]

lemma spend_foldl_income_none (ts : List Transaction) :
    ∀ d0, alistLookup d0 "Дохід" = none →
      alistLookup (ts.foldl spendStep d0) "Дохід" = none := by
  induction ts with
  | nil => intro d0 h; simpa using h
  | cons t rest ih =>
    intro d0 h
    rw [List.foldl_cons]
    exact ih _ (spendStep_income_none d0 t h)

/-- C3: over any date range, the spending report never contains the
income category as a key, and the value of the spending report at any
key is exactly the sum of the amounts of the categorized transactions of
the period with that (non-income) category, each counted once; the
income report value at any key is exactly the sum of the amounts of the
income-categorized transactions of the period with that description. -/
theorem C3_report_aggregation (account : Account) (s e : PyDate) :
    alistLookup (SpendingReport.generate account s e) "Дохід" = none ∧
    (∀ k : String,
      valueOrZero (SpendingReport.generate account s e) k =
        (((account.get_transactions_by_period s e).filter
            (fun t => decide (t.category = some k ∧ k ≠ "Дохід"))).map
          Transaction.amount).sum) ∧
    (∀ k : String,
      valueOrZero (IncomeReport.generate account s e) k =
        (((account.get_transactions_by_period s e).filter
            (fun t => decide (t.category = some "Дохід" ∧
              t.description = k))).map
          Transaction.amount).sum) := by
  refine ⟨?_, ?_, ?_⟩
  · exact spend_foldl_income_none _ [] rfl
  · intro k
    rw [SpendingReport.generate, spend_foldl_value]
    simp [valueOrZero, alistLookup]
  · intro k
    rw [IncomeReport.generate, income_foldl_value]
    simp [valueOrZero, alistLookup]

/-! ## Savings goal invariants -/

lemma add_contribution_invariant (g : SavingsGoal) (a : ℚ)
    (h0 : 0 ≤ g.current_amount) (h1 : g.current_amount ≤ g.target_amount)
    (g2 : SavingsGoal) (h : g.add_contribution a = (none, g2)) :
    0 ≤ g2.current_amount ∧ g.current_amount ≤ g2.current_amount ∧
    g2.current_amount ≤ g2.target_amount ∧ g2.target_amount = g.target_amount := by
  unfold SavingsGoal.add_contribution at h
  by_cases ha : a ≤ 0
  · simp [ha] at h
  · push_neg at ha
    simp only [not_le.mpr ha, if_false, Prod.mk.injEq, true_and] at h
    cases h
    simp only
    split_ifs with hclamp
    · exact ⟨by linarith, by linarith, le_refl _, trivial⟩
    · push_neg at hclamp
      exact ⟨by linarith, by linarith, hclamp, trivial⟩

lemma get_progress_bounds (g : SavingsGoal) (h0 : 0 ≤ g.current_amount)
    (h1 : g.current_amount ≤ g.target_amount) :
    0 ≤ g.get_progress ∧ g.get_progress ≤ 100 ∧
    (g.target_amount = 0 → g.get_progress = 100) := by
  unfold SavingsGoal.get_progress
  by_cases ht : g.target_amount = 0
  · simp [ht]
  · have htpos : 0 < g.target_amount := lt_of_le_of_ne (le_trans h0 h1) (Ne.symm ht)
    have hnn : 0 ≤ g.current_amount / g.target_amount := div_nonneg h0 htpos.le
    have hle : g.current_amount / g.target_amount ≤ 1 := (div_le_one htpos).mpr h1
    simp only [ht, if_false]
    exact ⟨by nlinarith, by nlinarith, fun hh => hh.elim⟩

lemma contribute_all_invariant (amts : List ℚ) :
    ∀ g g2 : SavingsGoal, 0 ≤ g.current_amount →
      g.current_amount ≤ g.target_amount →
      SavingsGoal.contribute_all g amts = (none, g2) →
      0 ≤ g2.current_amount ∧ g.current_amount ≤ g2.current_amount ∧
      g2.current_amount ≤ g2.target_amount ∧
      g2.target_amount = g.target_amount := by
  induction amts with
  | nil =>
    intro g g2 h0 h1 h
    simp only [SavingsGoal.contribute_all, Prod.mk.injEq, true_and] at h
    subst h
    exact ⟨h0, le_refl _, h1, rfl⟩
  | cons a rest ih =>
    intro g g2 h0 h1 h
    simp only [SavingsGoal.contribute_all] at h
    rcases hadd : g.add_contribution a with ⟨err, g1⟩
    rw [hadd] at h
    cases err with
    | some e => simp at h
    | none =>
      obtain ⟨i0, i1, i2, i3⟩ := add_contribution_invariant g a h0 h1 g1 hadd
      obtain ⟨j0, j1, j2, j3⟩ := ih g1 g2 i0 i2 h
      exact ⟨j0, le_trans i1 j1, j2, j3.trans i3⟩

/-- C4 counterexample: for the savings goal with target −5 and current
amount 0, `add_contribution 1` succeeds and the clamp drops
`current_amount` from 0 to −5, so `current_amount` is not monotonically
non-decreasing for every goal and every contribution sequence. -/
theorem C4_counterexample :
    (SavingsGoal.add_contribution ⟨some 1, "Ціль", -5, 0⟩ 1).1 = none ∧
    ((SavingsGoal.add_contribution ⟨some 1, "Ціль", -5, 0⟩ 1).2).current_amount <
      (⟨some 1, "Ціль", -5, 0⟩ : SavingsGoal).current_amount := by
  constructor
  · norm_num [SavingsGoal.add_contribution]
  · norm_num [SavingsGoal.add_contribution]

/-- C4 (amended): for every savings goal whose state is well-formed
(0 ≤ current_amount ≤ target_amount, as holds for every goal the service
creates), a non-positive contribution raises the validation error, and
after any sequence of successful contributions the current amount is
non-decreasing, stays in [0, target_amount] (clamped saturation), and
`get_progress` lies in [0, 100], equalling 100 when the target is 0. -/
theorem C4_goal_invariants (g : SavingsGoal) (h0 : 0 ≤ g.current_amount)
    (h1 : g.current_amount ≤ g.target_amount) :
    (∀ a : ℚ, a ≤ 0 → (g.add_contribution a).1 =
        some (PyError.valueError "Внесок має бути позитивним числом")) ∧
    (∀ (amts : List ℚ) (g2 : SavingsGoal),
        SavingsGoal.contribute_all g amts = (none, g2) →
        g.current_amount ≤ g2.current_amount ∧
        0 ≤ g2.current_amount ∧
        g2.current_amount ≤ g2.target_amount ∧
        g2.target_amount = g.target_amount ∧
        0 ≤ g2.get_progress ∧ g2.get_progress ≤ 100 ∧
        (g2.target_amount = 0 → g2.get_progress = 100)) := by
  constructor
  · intro a ha
    simp [SavingsGoal.add_contribution, ha]
  · intro amts g2 h
    obtain ⟨j0, j1, j2, j3⟩ := contribute_all_invariant amts g g2 h0 h1 h
    obtain ⟨p0, p1, p2⟩ := get_progress_bounds g2 j0 j2
    exact ⟨j1, j0, j2, j3, p0, p1, p2⟩

/-- C4 witness: the spec scenario goal (target 40000, current 0) is
well-formed and rejects the non-positive contribution −5. -/
theorem C4_witness :
    0 ≤ (0 : ℚ) ∧ (0 : ℚ) ≤ 40000 ∧
    (SavingsGoal.add_contribution ⟨some 1, "Ноутбук", 40000, 0⟩ (-5)).1 =
      some (PyError.valueError "Внесок має бути позитивним числом") := by
  refine ⟨le_refl 0, by norm_num, ?_⟩
  exact (C4_goal_invariants ⟨some 1, "Ноутбук", 40000, 0⟩ (by norm_num)
    (by norm_num)).1 (-5) (by norm_num)

/-! ## Service-level transaction and contribution lemmas -/

lemma add_transaction_error_state (svc : FinanceService) (today : PyDate)
    (amount : ℚ) (description category : String) (is_income : Bool)
    (e : PyError) (svc1 : FinanceService)
    (h : svc.add_transaction today amount description category is_income =
          (some e, svc1)) :
    svc1 = svc := by
  unfold FinanceService.add_transaction at h
  split at h
  · simp only [Prod.mk.injEq, Option.some.injEq] at h
    exact h.2.symm
  · split at h
    · simp only [Prod.mk.injEq, Option.some.injEq] at h
      exact h.2.symm
    · split at h
      · simp only [Prod.mk.injEq, Option.some.injEq] at h
        exact h.2.symm
      · simp at h

lemma add_contribution_error_msg (g : SavingsGoal) (a : ℚ) (e : PyError)
    (g1 : SavingsGoal) (h : g.add_contribution a = (some e, g1)) :
    e = .valueError "Внесок має бути позитивним числом" ∧ g1 = g := by
  unfold SavingsGoal.add_contribution at h
  by_cases ha : a ≤ 0
  · simp [ha] at h
    exact ⟨h.1.symm, h.2.symm⟩
  · simp [ha] at h

/-- C5: `add_contribution_to_goal` is two-phase: if it fails with
`InsufficientFunds`, the goal cache and the goal-persistence log are
unchanged; if it succeeds, the savings expense transaction was posted
through `add_transaction` first, and only then was the goal updated,
cached and persisted. -/
theorem C5_contribution_two_phase (svc : FinanceService) (today : PyDate)
    (goal_id : Int) (amount : ℚ) :
    (∀ (b a : ℚ) (svc2 : FinanceService),
        svc.add_contribution_to_goal today goal_id amount =
          (some (PyError.insufficientFunds b a), svc2) →
        svc2.goals = svc.goals ∧
        svc2.db_goal_updates = svc.db_goal_updates) ∧
    (∀ svc2 : FinanceService,
        svc.add_contribution_to_goal today goal_id amount = (none, svc2) →
        ∃ goal goal2 svc1,
          svc.goals.find? (fun g => decide (g.id = some goal_id)) =
            some goal ∧
          svc.add_transaction today amount
              ("Внесок до цілі: " ++ goal.name) "Заощадження" false =
            (none, svc1) ∧
          goal.add_contribution amount = (none, goal2) ∧
          svc2 = { svc1 with
            goals := replaceFirstGoal svc1.goals goal_id goal2,
            db_goal_updates := svc1.db_goal_updates ++ [goal2] }) := by
  constructor
  · intro b a svc2 h
    unfold FinanceService.add_contribution_to_goal at h
    split at h
    · simp at h
    · rename_i goal hfind
      split at h
      · rename_i e svc1 hadd
        have hsvc1 : svc1 = svc :=
          add_transaction_error_state svc today amount _ _ _ e svc1 hadd
        simp only [Prod.mk.injEq, Option.some.injEq] at h
        rw [← h.2, hsvc1]
        exact ⟨rfl, rfl⟩
      · rename_i svc1 hadd
        split at h
        · rename_i e g2 hc
          obtain ⟨he, -⟩ := add_contribution_error_msg goal amount e g2 hc
          simp only [Prod.mk.injEq, Option.some.injEq] at h
          rw [he] at h
          exact absurd h.1.symm (by simp)
        · simp at h
  · intro svc2 h
    unfold FinanceService.add_contribution_to_goal at h
    split at h
    · simp at h
    · rename_i goal hfind
      split at h
      · simp at h
      · rename_i svc1 hadd
        split at h
        · simp at h
        · rename_i goal2 hc
          simp only [Prod.mk.injEq, true_and] at h
          exact ⟨goal, goal2, svc1, hfind, hadd, hc, h.symm⟩

/-- A concrete service state: one account with balance 10, one savings
goal with target 100, used to exercise the service-level theorems. -/
def sampleService : FinanceService where
  accounts := [("Основний", ⟨"Основний", 10, []⟩)]
  current_account_name := some "Основний"
  debts := []
  goals := [⟨some 1, "Відпустка", 100, 0⟩]
  db_transactions := []
  db_debts := []
  db_goals := [⟨some 1, "Відпустка", 100, 0⟩]
  db_debt_updates := []
  db_goal_updates := []
  next_id := 2

/-- C5 witness: contributing 50 against balance 10 fails with
insufficient funds and leaves the goal cache and its persistence log
unchanged. -/
theorem C5_witness :
    ((sampleService.add_contribution_to_goal ⟨2025, 10, 26⟩ 1 50).2).goals =
      sampleService.goals ∧
    ((sampleService.add_contribution_to_goal
        ⟨2025, 10, 26⟩ 1 50).2).db_goal_updates =
      sampleService.db_goal_updates :=
  (C5_contribution_two_phase sampleService ⟨2025, 10, 26⟩ 1 50).1 10 50
    ((sampleService.add_contribution_to_goal ⟨2025, 10, 26⟩ 1 50).2) (by rfl)

/-! ## Service state machine -/

lemma add_transaction_uninitialized (svc : FinanceService) (today : PyDate)
    (amount : ℚ) (description category : String) (is_income : Bool)
    (h : svc.current_account_name = none) (hpos : 0 < amount) :
    svc.add_transaction today amount description category is_income =
      (some (PyError.valueError "Поточний рахунок не встановлено."), svc) := by
  have hga : svc.get_current_account =
      .error (.valueError "Поточний рахунок не встановлено.") := by
    unfold FinanceService.get_current_account
    rw [h]
  have hmk : mkCategorizedTransaction amount today description
      (if is_income then "Дохід" else category) =
      .ok ⟨amount, today, description,
        some (if is_income then "Дохід" else category)⟩ := by
    unfold mkCategorizedTransaction
    rw [if_neg (not_le.mpr hpos)]
  unfold FinanceService.add_transaction
  rw [hmk, hga]

/-- An uninitialized service state: accounts and goals exist, but
`set_current_account` has never been called. -/
def uninitService : FinanceService where
  accounts := [("Основний", ⟨"Основний", 100, []⟩)]
  current_account_name := none
  debts := []
  goals := [⟨some 1, "Відпустка", 100, 0⟩]
  db_transactions := []
  db_debts := []
  db_goals := [⟨some 1, "Відпустка", 100, 0⟩]
  db_debt_updates := []
  db_goal_updates := []
  next_id := 2

/-- C6 counterexample: in the uninitialized state (no current account),
`add_debt` and `add_savings_goal` succeed without any state error, so it
is false that every operation other than `set_current_account` fails
with a state error before an account is selected. -/
theorem C6_counterexample :
    uninitService.current_account_name = none ∧
    (uninitService.add_debt "Колега" 500 "2025-12-31" true).1 = none ∧
    (uninitService.add_savings_goal "Авто" 20000).1 = none :=
  ⟨rfl, rfl, rfl⟩

lemma account_add_transaction_cases (acc : Account) (t : Transaction)
    (is_income : Bool) :
    (∃ acc2, acc.add_transaction t is_income = (none, acc2)) ∨
    acc.add_transaction t is_income =
      (some (.insufficientFunds acc.balance t.amount), acc) := by
  unfold Account.add_transaction
  cases is_income with
  | false =>
    by_cases hgt : t.amount > acc.balance
    · right
      simp [hgt]
    · left
      refine ⟨{ acc with
          balance := acc.balance - t.amount
          transactions := acc.transactions ++ [t] }, ?_⟩
      simp [hgt]
  | true =>
    left
    refine ⟨{ acc with
        balance := acc.balance + t.amount
        transactions := acc.transactions ++ [t] }, ?_⟩
    simp

lemma svc_add_transaction_cases (svc : FinanceService) (acc : Account)
    (hga : svc.get_current_account = .ok acc) (today : PyDate) (amount : ℚ)
    (description category : String) (is_income : Bool) (hpos : 0 < amount) :
    (∃ svcR, svc.add_transaction today amount description category is_income =
      (none, svcR)) ∨
    svc.add_transaction today amount description category is_income =
      (some (.insufficientFunds acc.balance amount), svc) := by
  have hmk : mkCategorizedTransaction amount today description
      (if is_income then "Дохід" else category) =
      .ok ⟨amount, today, description,
        some (if is_income then "Дохід" else category)⟩ := by
    unfold mkCategorizedTransaction
    rw [if_neg (not_le.mpr hpos)]
  rcases account_add_transaction_cases acc
      ⟨amount, today, description,
        some (if is_income then "Дохід" else category)⟩ is_income
    with ⟨acc2, hcase⟩ | hcase
  · left
    have hres : svc.add_transaction today amount description category
        is_income =
        (none, { svc with
          accounts := alistUpdate svc.accounts
            (svc.current_account_name.getD "") acc2
          db_transactions := svc.db_transactions ++
            [(svc.current_account_name.getD "",
              ⟨amount, today, description,
                some (if is_income then "Дохід" else category)⟩,
              is_income)] }) := by
      unfold FinanceService.add_transaction
      simp only [hmk, hga, hcase]
    exact ⟨_, hres⟩
  · right
    unfold FinanceService.add_transaction
    simp only [hmk, hga, hcase]

/-- C6 (amended): in the uninitialized state, the operations that access
the active account — `get_current_account`, `add_transaction` (with a
valid positive amount), `add_contribution_to_goal` (with an existing
goal and positive amount), `generate_report` and `get_spending_analysis`
— fail with the state error, while the debt/goal management operations
`add_debt`, `add_savings_goal` and `update_debt_status` (with an
existing debt id) do not require an active account and succeed; after a
successful `set_current_account` with a non-empty name the state error
is gone from all the account-accessing operations: `get_current_account`,
`generate_report` and `get_spending_analysis` succeed, and
`add_transaction` and `add_contribution_to_goal` no longer fail with the
state error under the same preconditions. -/
theorem C6_state_machine (svc : FinanceService)
    (h : svc.current_account_name = none) :
    svc.get_current_account =
      .error (.valueError "Поточний рахунок не встановлено.") ∧
    (∀ (today : PyDate) (amount : ℚ) (description category : String)
        (is_income : Bool), 0 < amount →
        (svc.add_transaction today amount description category is_income).1 =
          some (.valueError "Поточний рахунок не встановлено.")) ∧
    (∀ (today : PyDate) (goal_id : Int) (amount : ℚ) (goal : SavingsGoal),
        svc.goals.find? (fun g => decide (g.id = some goal_id)) = some goal →
        0 < amount →
        (svc.add_contribution_to_goal today goal_id amount).1 =
          some (.valueError "Поточний рахунок не встановлено.")) ∧
    (∀ (kind : ReportKind) (today : PyDate),
        svc.generate_report kind today =
          .error (.valueError "Поточний рахунок не встановлено.")) ∧
    (∀ today : PyDate,
        svc.get_spending_analysis today =
          .error (.valueError "Поточний рахунок не встановлено.")) ∧
    (∀ (name : String) (amount : ℚ) (due_date : String) (is_loan : Bool),
        (svc.add_debt name amount due_date is_loan).1 = none) ∧
    (∀ (name : String) (target : ℚ),
        (svc.add_savings_goal name target).1 = none) ∧
    (∀ (debt_id : Int) (is_paid : Bool) (debt : Debt),
        svc.debts.find? (fun d => decide (d.id = some debt_id)) = some debt →
        (svc.update_debt_status debt_id is_paid).1 = none) ∧
    (∀ (name : String) (svc2 : FinanceService),
        svc.set_current_account name = (none, svc2) → name ≠ "" →
        (∃ acc, svc2.get_current_account = Except.ok acc) ∧
        (∀ (kind : ReportKind) (today : PyDate), ∃ r,
            svc2.generate_report kind today = .ok r) ∧
        (∀ today : PyDate, ∃ r,
            svc2.get_spending_analysis today = .ok r) ∧
        (∀ (today : PyDate) (amount : ℚ) (description category : String)
            (is_income : Bool), 0 < amount →
            (svc2.add_transaction today amount description category
                is_income).1 ≠
              some (.valueError "Поточний рахунок не встановлено.")) ∧
        (∀ (today : PyDate) (goal_id : Int) (amount : ℚ)
            (goal : SavingsGoal),
            svc2.goals.find? (fun g => decide (g.id = some goal_id)) =
              some goal →
            0 < amount →
            (svc2.add_contribution_to_goal today goal_id amount).1 ≠
              some (.valueError "Поточний рахунок не встановлено."))) := by
  have hga0 : svc.get_current_account =
      .error (.valueError "Поточний рахунок не встановлено.") := by
    unfold FinanceService.get_current_account
    rw [h]
  refine ⟨hga0, ?_, ?_, ?_, ?_, ?_, ?_, ?_, ?_⟩
  · intro today amount description category is_income hpos
    rw [add_transaction_uninitialized svc today amount description category
      is_income h hpos]
  · intro today goal_id amount goal hfind hpos
    unfold FinanceService.add_contribution_to_goal
    split
    · rename_i hnone
      exact absurd (hfind.symm.trans hnone) (by simp)
    · rename_i goal1 hfind1
      rw [add_transaction_uninitialized svc today amount _ _ _ h hpos]
  · intro kind today
    unfold FinanceService.generate_report
    simp only [hga0]
  · intro today
    unfold FinanceService.get_spending_analysis
    simp only [hga0]
  · intro name amount due_date is_loan
    rfl
  · intro name target
    rfl
  · intro debt_id is_paid debt hfind
    unfold FinanceService.update_debt_status
    simp only [hfind]
  · intro name svc2 hset hne
    unfold FinanceService.set_current_account at hset
    by_cases hl : (alistLookup svc.accounts name).isSome
    · rw [if_pos hl] at hset
      simp only [Prod.mk.injEq, true_and] at hset
      rcases hacc : alistLookup svc.accounts name with _ | acc0
      · rw [hacc] at hl
        simp at hl
      · subst hset
        have hga : FinanceService.get_current_account
            { svc with current_account_name := some name } =
            Except.ok acc0 := by
          unfold FinanceService.get_current_account
          simp [hne, hacc]
        refine ⟨⟨acc0, hga⟩, ?_, ?_, ?_, ?_⟩
        · intro kind today
          refine ⟨(renderReportText kind
              (match kind with
               | .spending =>
                 SpendingReport.generate acc0 { today with day := 1 } today
               | .income =>
                 IncomeReport.generate acc0 { today with day := 1 } today)
              (pyDateStr { today with day := 1 }) (pyDateStr today),
            reportFilename kind (pyDateYM today)), ?_⟩
          unfold FinanceService.generate_report
          simp only [hga]
        · intro today
          refine ⟨(sortByValueDesc
              (SpendingReport.generate acc0 ⟨2000, 1, 1⟩ today)).take 5, ?_⟩
          unfold FinanceService.get_spending_analysis
          simp only [hga]
        · intro today amount description category is_income hpos hcontra
          rcases svc_add_transaction_cases _ acc0 hga today amount description
              category is_income hpos with ⟨svcR, heq⟩ | heq
          · rw [heq] at hcontra
            simp at hcontra
          · rw [heq] at hcontra
            simp at hcontra
        · intro today goal_id amount goal hfind hpos hcontra
          rcases hgc : goal.add_contribution amount with ⟨gerr, goal2⟩
          have hgerr : gerr = none := by
            unfold SavingsGoal.add_contribution at hgc
            rw [if_neg (not_le.mpr hpos)] at hgc
            simp only [Prod.mk.injEq] at hgc
            exact hgc.1.symm
          subst hgerr
          unfold FinanceService.add_contribution_to_goal at hcontra
          rcases svc_add_transaction_cases _ acc0 hga today amount
              ("Внесок до цілі: " ++ goal.name) "Заощадження" false hpos
            with ⟨svcR, heq⟩ | heq
          · simp [hfind, heq, hgc] at hcontra
          · simp [hfind, heq] at hcontra
    · rw [if_neg hl] at hset
      simp at hset

/-- C6 witness: the sample uninitialized service satisfies the
hypothesis and `get_current_account` raises the state error there. -/
theorem C6_witness :
    uninitService.current_account_name = none ∧
    uninitService.get_current_account =
      Except.error (PyError.valueError "Поточний рахунок не встановлено.") :=
  ⟨rfl, (C6_state_machine uninitService rfl).1⟩

/-! ## Transaction constructor validation -/

/-- C7 counterexample: the constructor accepts +inf and NaN, both
non-finite amounts, because the code only checks `amount <= 0` (a
comparison that is false for +inf and for NaN) and performs no
finiteness check; so construction does not fail for every non-finite
amount. -/
theorem C7_counterexample :
    mkTransactionF PyFloat.posInf ⟨2025, 10, 27⟩ "Нескінченна сума" =
      Except.ok ⟨PyFloat.posInf, ⟨2025, 10, 27⟩, "Нескінченна сума"⟩ ∧
    mkTransactionF PyFloat.nan ⟨2025, 10, 27⟩ "Не число" =
      Except.ok ⟨PyFloat.nan, ⟨2025, 10, 27⟩, "Не число"⟩ :=
  ⟨rfl, rfl⟩

/-- C7 (amended): Transaction construction fails with the validation
error exactly when the amount compares `<= 0` under IEEE semantics: it
fails for every finite amount ≤ 0 and for −inf, succeeds for every
positive finite amount, and also succeeds for +inf and NaN (the code
does not check finiteness). -/
theorem C7_transaction_validation (date : PyDate) (description : String) :
    (∀ q : ℚ, q ≤ 0 →
        mkTransactionF (.finite q) date description =
          .error (.valueError "Сума має бути додатнім числом.")) ∧
    (∀ q : ℚ, 0 < q →
        mkTransactionF (.finite q) date description =
          .ok ⟨.finite q, date, description⟩) ∧
    mkTransactionF .negInf date description =
      .error (.valueError "Сума має бути додатнім числом.") ∧
    mkTransactionF .posInf date description =
      .ok ⟨.posInf, date, description⟩ ∧
    mkTransactionF .nan date description =
      .ok ⟨.nan, date, description⟩ := by
  refine ⟨?_, ?_, rfl, rfl, rfl⟩
  · intro q hq
    simp [mkTransactionF, PyFloat.leZero, hq]
  · intro q hq
    simp [mkTransactionF, PyFloat.leZero, not_le.mpr hq]

/-- C7 witness: the spec instances 0, −0.01 and −50 are all rejected. -/
theorem C7_witness :
    ((0 : ℚ) ≤ 0) ∧
    mkTransactionF (.finite 0) ⟨2025, 10, 27⟩ "Нульова" =
      .error (.valueError "Сума має бути додатнім числом.") ∧
    mkTransactionF (.finite (-1 / 100)) ⟨2025, 10, 27⟩ "Мінус копійка" =
      .error (.valueError "Сума має бути додатнім числом.") ∧
    mkTransactionF (.finite (-50)) ⟨2025, 10, 27⟩ "Мінус пятдесят" =
      .error (.valueError "Сума має бути додатнім числом.") := by
  refine ⟨le_refl 0, ?_, ?_, ?_⟩
  · exact (C7_transaction_validation ⟨2025, 10, 27⟩ "Нульова").1 0 (le_refl 0)
  · exact (C7_transaction_validation ⟨2025, 10, 27⟩ "Мінус копійка").1
      (-1 / 100) (by norm_num)
  · exact (C7_transaction_validation ⟨2025, 10, 27⟩ "Мінус пятдесят").1
      (-50) (by norm_num)

/-! ## Income category forcing -/

lemma alistLookup_alistUpdate {α : Type} (d : List (String × α)) (k : String)
    (v : α) : alistLookup (alistUpdate d k v) k = some v := by
  induction d with
  | nil => simp [alistUpdate, alistLookup]
  | cons p rest ih =>
    obtain ⟨k0, v0⟩ := p
    by_cases h : k0 = k
    · subst h; simp [alistUpdate, alistLookup]
    · simp [alistUpdate, alistLookup, h, ih]

lemma account_add_transaction_ok (acc : Account) (t : Transaction)
    (is_income : Bool) (acc2 : Account)
    (h : acc.add_transaction t is_income = (none, acc2)) :
    acc2.transactions = acc.transactions ++ [t] := by
  unfold Account.add_transaction at h
  cases is_income with
  | true =>
    simp only [Bool.not_true, Bool.false_eq_true, if_false, Prod.mk.injEq,
      true_and] at h
    rw [← h]
  | false =>
    by_cases hgt : t.amount > acc.balance
    · simp [hgt] at h
    · simp only [Bool.not_false, if_true, if_neg hgt, Prod.mk.injEq,
        true_and] at h
      rw [← h]

/-- C8: when the service-level `add_transaction` succeeds, the stored
categorized transaction carries the literal income category whenever
`is_income` is true, regardless of the caller-supplied category, and the
caller-supplied category otherwise — both in the persisted row and as
the transaction appended to the active account's ledger. -/
theorem C8_income_category (svc : FinanceService) (today : PyDate)
    (amount : ℚ) (description category : String) (is_income : Bool)
    (svc2 : FinanceService)
    (h : svc.add_transaction today amount description category is_income =
          (none, svc2)) :
    svc2.db_transactions = svc.db_transactions ++
      [(svc.current_account_name.getD "",
        ⟨amount, today, description,
          some (if is_income then "Дохід" else category)⟩, is_income)] ∧
    ∃ acc2 : Account,
      alistLookup svc2.accounts (svc.current_account_name.getD "") =
        some acc2 ∧
      acc2.transactions.getLast? =
        some ⟨amount, today, description,
          some (if is_income then "Дохід" else category)⟩ := by
  unfold FinanceService.add_transaction at h
  split at h
  · simp at h
  · rename_i t hmk
    split at h
    · simp at h
    · rename_i account hga
      split at h
      · simp at h
      · rename_i account2 hacct
        have ht : t = ⟨amount, today, description,
            some (if is_income then "Дохід" else category)⟩ := by
          unfold mkCategorizedTransaction at hmk
          split at hmk
          · simp at hmk
          · simp only [Except.ok.injEq] at hmk
            exact hmk.symm
        simp only [Prod.mk.injEq, true_and] at h
        subst ht
        constructor
        · rw [← h]
        · refine ⟨account2, ?_, ?_⟩
          · rw [← h]
            exact alistLookup_alistUpdate svc.accounts _ account2
          · rw [account_add_transaction_ok account _ is_income account2 hacct,
              List.getLast?_concat]

/-- C8 witness: an income addition with caller category "Робота" is
stored with category "Дохід". -/
theorem C8_witness :
    ((sampleService.add_transaction ⟨2025, 10, 26⟩ 50 "Зарплата" "Робота"
        true).2).db_transactions =
      sampleService.db_transactions ++
        [("Основний", ⟨50, ⟨2025, 10, 26⟩, "Зарплата", some "Дохід"⟩,
          true)] := by
  have h := C8_income_category sampleService ⟨2025, 10, 26⟩ 50 "Зарплата"
    "Робота" true
    ((sampleService.add_transaction ⟨2025, 10, 26⟩ 50 "Зарплата" "Робота"
      true).2) (by rfl)
  exact h.1

/-! ## Report artifact format -/

lemma strData_append (a b : String) : (a ++ b).data = a.data ++ b.data := rfl

lemma strAppend_assoc (a b c : String) : a ++ b ++ c = a ++ (b ++ c) := by
  apply String.ext
  rw [strData_append, strData_append, strData_append, strData_append]
  exact List.append_assoc a.data b.data c.data

lemma strAppend_empty (a : String) : a ++ "" = a := by
  apply String.ext
  rw [strData_append]
  exact List.append_nil a.data

lemma strEmpty_append (a : String) : "" ++ a = a := by
  apply String.ext
  rw [strData_append]
  rfl

lemma strJoin_cons (x : String) (xs : List String) :
    String.join (x :: xs) = x ++ String.join xs := by
  have haux : ∀ (l : List String) (s : String),
      l.foldl (fun a b => a ++ b) s = s ++ l.foldl (fun a b => a ++ b) "" := by
    intro l
    induction l with
    | nil => intro s; exact (strAppend_empty s).symm
    | cons y ys ih =>
      intro s
      rw [List.foldl_cons, List.foldl_cons, ih (s ++ y), ih ("" ++ y),
        strEmpty_append, strAppend_assoc]
  show (x :: xs).foldl (fun a b => a ++ b) "" = x ++ xs.foldl (fun a b => a ++ b) ""
  rw [List.foldl_cons, haux xs ("" ++ x), strEmpty_append]

lemma strJoin_append (xs ys : List String) :
    String.join (xs ++ ys) = String.join xs ++ String.join ys := by
  induction xs with
  | nil =>
    rw [List.nil_append]
    exact (strEmpty_append _).symm
  | cons x l ih =>
    rw [List.cons_append, strJoin_cons, strJoin_cons, ih, strAppend_assoc]

lemma report_foldl_eq (data : List (String × ℚ)) :
    ∀ base : String,
      data.foldl (fun acc p => acc ++ reportLine p.1 p.2 ++ "\n") base =
        base ++ String.join
          (data.map (fun p => reportLine p.1 p.2 ++ "\n")) := by
  induction data with
  | nil =>
    intro base
    rw [List.foldl_nil, List.map_nil]
    exact (strAppend_empty base).symm
  | cons p rest ih =>
    intro base
    rw [List.foldl_cons, List.map_cons, ih, strJoin_cons]
    simp only [strAppend_assoc]

/-- C9 counterexample: for the single aggregated key "Їжа" with sum 100
the written report line is "- Їжа: 100.00 грн", not the claimed exact
form "- Їжа: 100.00" — the code appends the currency suffix " грн" to
every aggregated-key line (and to the total line). -/
theorem C9_counterexample :
    splitLines (renderReportText .spending [("Їжа", 100)]
        "2025-01-01" "2025-01-15") =
      ["Звіт про витрати з 2025-01-01 по 2025-01-15", "",
       "- Їжа: 100.00 грн", "", "Усього: 100.00 грн"] ∧
    specReportLine "Їжа" 100 = "- Їжа: 100.00" ∧
    specReportLine "Їжа" 100 ∉
      splitLines (renderReportText .spending [("Їжа", 100)]
        "2025-01-01" "2025-01-15") := by
  have h1 : splitLines (renderReportText .spending [("Їжа", 100)]
      "2025-01-01" "2025-01-15") =
      ["Звіт про витрати з 2025-01-01 по 2025-01-15", "",
       "- Їжа: 100.00 грн", "", "Усього: 100.00 грн"] := by
    with_unfolding_all rfl
  have h2 : specReportLine "Їжа" 100 = "- Їжа: 100.00" := by
    with_unfolding_all rfl
  refine ⟨h1, h2, ?_⟩
  rw [h1, h2]
  decide

/-- C9 (amended): for a non-empty aggregation the report text is the
title, a blank line, one line of the form "- {key}: {value:.2f} грн" per
aggregated key, and a trailing total line "Усього: {total:.2f} грн"
separated by a blank line; for an empty aggregation the body is the
no-data line instead; the report is written to a file named
`{spending|income}_report_{YYYY-MM}.txt` (the claimed line form lacks
the " грн" currency suffix the code appends). -/
theorem C9_report_format (kind : ReportKind) (data : List (String × ℚ))
    (start_date end_date yearMonth : String) :
    (data ≠ [] →
      renderReportText kind data start_date end_date =
        reportTitle kind start_date end_date ++ "\n\n" ++
          String.join (data.map (fun p => reportLine p.1 p.2 ++ "\n")) ++
          "\n" ++ "Усього: " ++ pyFmt2 ((data.map Prod.snd).sum) ++
          " грн") ∧
    (∀ p ∈ data, ∃ pre post : String,
        renderReportText kind data start_date end_date =
          pre ++ ("- " ++ p.1 ++ ": " ++ pyFmt2 p.2 ++ " грн" ++ "\n") ++
            post) ∧
    (data = [] →
      renderReportText kind data start_date end_date =
        reportTitle kind start_date end_date ++ "\n\n" ++
          "Даних за цей період немає.") ∧
    reportFilename kind yearMonth =
      reportFileStem kind ++ "_" ++ yearMonth ++ ".txt" := by
  have htext : data ≠ [] →
      renderReportText kind data start_date end_date =
      reportTitle kind start_date end_date ++ "\n\n" ++
        String.join (data.map (fun p => reportLine p.1 p.2 ++ "\n")) ++
        "\n" ++ "Усього: " ++ pyFmt2 ((data.map Prod.snd).sum) ++ " грн" := by
    intro hne
    have hempty : data.isEmpty = false := by
      cases data with
      | nil => exact absurd rfl hne
      | cons a l => rfl
    unfold renderReportText
    rw [hempty]
    simp only [Bool.false_eq_true, if_false]
    rw [report_foldl_eq]
  refine ⟨htext, ?_, ?_, rfl⟩
  · intro p hp
    have hne : data ≠ [] := by
      intro hnil
      rw [hnil] at hp
      exact absurd hp (List.not_mem_nil p)
    obtain ⟨l1, l2, hsplit⟩ := List.append_of_mem hp
    refine ⟨reportTitle kind start_date end_date ++ "\n\n" ++
      String.join (l1.map (fun q => reportLine q.1 q.2 ++ "\n")),
      String.join (l2.map (fun q => reportLine q.1 q.2 ++ "\n")) ++
        "\n" ++ "Усього: " ++ pyFmt2 ((data.map Prod.snd).sum) ++ " грн", ?_⟩
    rw [htext hne, hsplit, List.map_append, strJoin_append, List.map_cons,
      strJoin_cons]
    show _ ++ _ ++ _ ++ _ ++ _ ++ _ ++ _ = _
    rw [reportLine]
    simp only [strAppend_assoc]
  · intro hnil
    subst hnil
    rfl

/-- C9 witness: the empty aggregation yields the no-data body, a
one-key aggregation yields the key-line/total form, and the spending
report for month 2025-01 goes to `spending_report_2025-01.txt`. -/
theorem C9_witness :
    renderReportText .spending [] "2025-01-01" "2025-01-15" =
      reportTitle .spending "2025-01-01" "2025-01-15" ++ "\n\n" ++
        "Даних за цей період немає." ∧
    renderReportText .spending [("Їжа", 100)] "2025-01-01" "2025-01-15" =
      reportTitle .spending "2025-01-01" "2025-01-15" ++ "\n\n" ++
        String.join ([(("Їжа" : String), (100 : ℚ))].map
          (fun p => reportLine p.1 p.2 ++ "\n")) ++
        "\n" ++ "Усього: " ++
        pyFmt2 (([(("Їжа" : String), (100 : ℚ))].map Prod.snd).sum) ++
        " грн" ∧
    reportFilename .spending "2025-01" = "spending_report_2025-01.txt" := by
  refine ⟨?_, ?_, ?_⟩
  · exact (C9_report_format .spending [] "2025-01-01" "2025-01-15"
      "2025-01").2.2.1 rfl
  · exact (C9_report_format .spending [("Їжа", 100)] "2025-01-01"
      "2025-01-15" "2025-01").1 (by simp)
  · rw [(C9_report_format .spending [("Їжа", 100)] "2025-01-01" "2025-01-15"
      "2025-01").2.2.2]
    rfl

/-! ## Plain transactions and aggregation -/

/-- C10: a plain (non-categorized) transaction added to an account
changes the balance and appears in period queries, but is never counted
by `SpendingReport.generate`, `IncomeReport.generate` or
`Budget.get_spent_amount`, all of which aggregate only categorized
transactions. -/
theorem C10_plain_transaction (acc : Account) (t : Transaction)
    (hplain : t.category = none) (b : Budget) (s e : PyDate) :
    (∃ acc2, acc.add_transaction t true = (none, acc2) ∧
      acc2.balance = acc.balance + t.amount ∧
      acc2.transactions = acc.transactions ++ [t]) ∧
    (∀ acc2, acc.add_transaction t true = (none, acc2) →
      PyDate.ble s t.date = true → PyDate.ble t.date e = true →
      t ∈ acc2.get_transactions_by_period s e) ∧
    (∀ acc2, acc.add_transaction t true = (none, acc2) →
      SpendingReport.generate acc2 s e = SpendingReport.generate acc s e ∧
      IncomeReport.generate acc2 s e = IncomeReport.generate acc s e ∧
      b.get_spent_amount acc2.transactions =
        b.get_spent_amount acc.transactions) := by
  have hadd : acc.add_transaction t true =
      (none, { acc with
               balance := acc.balance + t.amount
               transactions := acc.transactions ++ [t] }) := rfl
  have htr : ∀ acc2, acc.add_transaction t true = (none, acc2) →
      acc2.transactions = acc.transactions ++ [t] := by
    intro acc2 h
    rw [hadd] at h
    simp only [Prod.mk.injEq, true_and] at h
    rw [← h]
  refine ⟨⟨_, hadd, rfl, rfl⟩, ?_, ?_⟩
  · intro acc2 h hs he
    unfold Account.get_transactions_by_period
    rw [htr acc2 h]
    simp [List.mem_filter, hs, he]
  · intro acc2 h
    refine ⟨?_, ?_, ?_⟩
    · unfold SpendingReport.generate Account.get_transactions_by_period
      rw [htr acc2 h, List.filter_append, List.foldl_append]
      by_cases hp : (s.ble t.date && t.date.ble e) = true
      · simp [List.filter, hp, spendStep, hplain]
      · simp [List.filter, hp]
    · unfold IncomeReport.generate Account.get_transactions_by_period
      rw [htr acc2 h, List.filter_append, List.foldl_append]
      by_cases hp : (s.ble t.date && t.date.ble e) = true
      · simp [List.filter, hp, incomeStep, hplain]
      · simp [List.filter, hp]
    · unfold Budget.get_spent_amount
      rw [htr acc2 h, List.filter_append]
      simp [List.filter, hplain]

/-- C10 witness: a plain cash transaction of 50 changes nothing in the
budget aggregation of the account it joins. -/
theorem C10_witness :
    ((⟨50, ⟨2025, 1, 2⟩, "Готівка", none⟩ : Transaction).category = none) ∧
    Budget.get_spent_amount ⟨"Їжа", 1000⟩
        ((Account.add_transaction ⟨"Тест", 100, []⟩
            ⟨50, ⟨2025, 1, 2⟩, "Готівка", none⟩ true).2).transactions =
      Budget.get_spent_amount ⟨"Їжа", 1000⟩
        (⟨"Тест", 100, []⟩ : Account).transactions := by
  refine ⟨rfl, ?_⟩
  exact ((C10_plain_transaction ⟨"Тест", 100, []⟩
      ⟨50, ⟨2025, 1, 2⟩, "Готівка", none⟩ rfl ⟨"Їжа", 1000⟩
      ⟨2025, 1, 1⟩ ⟨2025, 1, 31⟩).2.2
    ((Account.add_transaction ⟨"Тест", 100, []⟩
        ⟨50, ⟨2025, 1, 2⟩, "Готівка", none⟩ true).2) rfl).2.2
